import Mathlib

/-!
# TrueTime.swift core — shallow embedding and verification

Shallow embedding of the C sources of the TrueTime library
(`Sources/CTrueTime/ntp_types.h`, `NetworkTime/uptime.c`) together with
spec-modelled definitions for the components whose Swift implementation is
not among the visible sources (packet byte codec validation, round-trip
estimator, sync coordinator).

Bytes are modelled as `Nat` (with validity bounds `< 256` where relevant),
machine integers as `Int`/`Nat`, and time quantities as `ℚ`.
-/

namespace TrueTime

/-! ## Data model: `ntp_types.h`

`ntp_time32_t`: packed pair of `uint16_t whole` / `uint16_t fraction`.
`ntp_time64_t`: packed pair of `uint32_t whole` / `uint32_t fraction`.
`ntp_packet_t`: packed struct with one bitfield header byte
(`client_mode:3`, `version_number:3`, `leap_indicator:2`, first field in
the least significant bits per the little-endian ABI), three single-byte
fields, two 32-bit fixed-point fields, a 4-byte reference id, and four
64-bit fixed-point timestamps.  The `reference_id[4]` array is modelled
as four byte fields. -/

structure NtpTime32 where
  whole : Nat
  fraction : Nat
deriving DecidableEq, Repr

structure NtpTime64 where
  whole : Nat
  fraction : Nat
deriving DecidableEq, Repr

structure NtpPacket where
  client_mode : Nat
  version_number : Nat
  leap_indicator : Nat
  stratum : Nat
  poll : Nat
  precision : Nat
  root_delay : NtpTime32
  root_dispersion : NtpTime32
  reference_id_0 : Nat
  reference_id_1 : Nat
  reference_id_2 : Nat
  reference_id_3 : Nat
  reference_time : NtpTime64
  originate_time : NtpTime64
  receive_time : NtpTime64
  transmit_time : NtpTime64
deriving DecidableEq, Repr

/-- Validity of a 32-bit fixed-point value: both halves fit in 16 bits. -/
def NtpTime32.Valid (t : NtpTime32) : Prop :=
  t.whole < 2 ^ 16 ∧ t.fraction < 2 ^ 16

/-- Validity of a 64-bit fixed-point value: both halves fit in 32 bits. -/
def NtpTime64.Valid (t : NtpTime64) : Prop :=
  t.whole < 2 ^ 32 ∧ t.fraction < 2 ^ 32

/-- Validity of a packet value: each field fits the width its struct field
has in `ntp_packet_t` (3-, 3- and 2-bit bitfields, bytes, and the
fixed-point pairs). -/
def NtpPacket.Valid (p : NtpPacket) : Prop :=
  p.client_mode < 8 ∧ p.version_number < 8 ∧ p.leap_indicator < 4 ∧
  p.stratum < 256 ∧ p.poll < 256 ∧ p.precision < 256 ∧
  p.root_delay.Valid ∧ p.root_dispersion.Valid ∧
  p.reference_id_0 < 256 ∧ p.reference_id_1 < 256 ∧
  p.reference_id_2 < 256 ∧ p.reference_id_3 < 256 ∧
  p.reference_time.Valid ∧ p.originate_time.Valid ∧
  p.receive_time.Valid ∧ p.transmit_time.Valid

instance (t : NtpTime32) : Decidable t.Valid := by
  unfold NtpTime32.Valid; infer_instance

instance (t : NtpTime64) : Decidable t.Valid := by
  unfold NtpTime64.Valid; infer_instance

instance (p : NtpPacket) : Decidable p.Valid := by
  unfold NtpPacket.Valid; infer_instance

/-- Seconds denoted by the fractional half of an `ntp_time64_t`; the wire
format gives it 2^-32 resolution. -/
def NtpTime64.fracSeconds (t : NtpTime64) : ℚ := (t.fraction : ℚ) / 2 ^ 32

/-- Seconds since the protocol epoch denoted by an `ntp_time64_t`. -/
def NtpTime64.seconds (t : NtpTime64) : ℚ := (t.whole : ℚ) + t.fracSeconds

/-! ## Packet byte codec

Modelled from the spec: the Swift `PacketCodec` implementation is not
among the visible sources; the byte layout is taken from the packed
struct `ntp_packet_t` in `ntp_types.h` and the spec's byte-order rule
("Byte order: big-endian for all multi-byte fields"). -/

/-- The bitfield header byte of `ntp_packet_t`: `client_mode` occupies the
three least significant bits, `version_number` the next three,
`leap_indicator` the top two (first declared bitfield at the least
significant end, as on the library's little-endian targets). -/
def headerByte (p : NtpPacket) : Nat :=
  p.client_mode % 8 + 8 * (p.version_number % 8) + 64 * (p.leap_indicator % 4)

/-- Big-endian bytes of a 16-bit value. -/
def u16be (n : Nat) : List Nat :=
  [n / 256 % 256, n % 256]

/-- Big-endian bytes of a 32-bit value. -/
def u32be (n : Nat) : List Nat :=
  [n / 16777216 % 256, n / 65536 % 256, n / 256 % 256, n % 256]

/-- Wire bytes of an `ntp_time32_t`: 16-bit whole then 16-bit fraction. -/
def encTime32 (t : NtpTime32) : List Nat :=
  u16be t.whole ++ u16be t.fraction

/-- Wire bytes of an `ntp_time64_t`: 32-bit whole then 32-bit fraction. -/
def encTime64 (t : NtpTime64) : List Nat :=
  u32be t.whole ++ u32be t.fraction

/-- Modelled from the spec: serialize an `ntp_packet_t` to its wire bytes,
fields in declaration order of the packed struct, multi-byte fields
big-endian. -/
def encodePacket (p : NtpPacket) : List Nat :=
  [headerByte p, p.stratum % 256, p.poll % 256, p.precision % 256]
    ++ encTime32 p.root_delay
    ++ encTime32 p.root_dispersion
    ++ [p.reference_id_0 % 256, p.reference_id_1 % 256,
        p.reference_id_2 % 256, p.reference_id_3 % 256]
    ++ encTime64 p.reference_time
    ++ encTime64 p.originate_time
    ++ encTime64 p.receive_time
    ++ encTime64 p.transmit_time

/-- The byte at offset `i` of a datagram (0 when out of range). -/
def byteAt (b : List Nat) (i : Nat) : Nat := b.getD i 0

/-- Read a big-endian 16-bit value at offset `i`. -/
def rdU16 (b : List Nat) (i : Nat) : Nat :=
  byteAt b i * 256 + byteAt b (i + 1)

/-- Read a big-endian 32-bit value at offset `i`. -/
def rdU32 (b : List Nat) (i : Nat) : Nat :=
  byteAt b i * 16777216 + byteAt b (i + 1) * 65536 +
    byteAt b (i + 2) * 256 + byteAt b (i + 3)

/-- Read an `ntp_time32_t` at offset `i`. -/
def rdTime32 (b : List Nat) (i : Nat) : NtpTime32 :=
  ⟨rdU16 b i, rdU16 b (i + 2)⟩

/-- Read an `ntp_time64_t` at offset `i`. -/
def rdTime64 (b : List Nat) (i : Nat) : NtpTime64 :=
  ⟨rdU32 b i, rdU32 b (i + 4)⟩

/-- Read the fields of an `ntp_packet_t` at their struct offsets; the
bitfields of the header byte are extracted by shift and mask. -/
def decodeFields (b : List Nat) : NtpPacket where
  client_mode := byteAt b 0 % 8
  version_number := byteAt b 0 / 8 % 8
  leap_indicator := byteAt b 0 / 64 % 4
  stratum := byteAt b 1
  poll := byteAt b 2
  precision := byteAt b 3
  root_delay := rdTime32 b 4
  root_dispersion := rdTime32 b 8
  reference_id_0 := byteAt b 12
  reference_id_1 := byteAt b 13
  reference_id_2 := byteAt b 14
  reference_id_3 := byteAt b 15
  reference_time := rdTime64 b 16
  originate_time := rdTime64 b 24
  receive_time := rdTime64 b 32
  transmit_time := rdTime64 b 40

/-- Modelled from the spec: parse a datagram into an `ntp_packet_t`,
rejecting any datagram whose byte length is not the 48-byte wire size. -/
def decodePacket (b : List Nat) : Option NtpPacket :=
  if b.length = 48 then some (decodeFields b) else none

/-- Reasons a datagram fails response validation. -/
inductive DecodeError where
  | invalidLength
  | alarmLeapIndicator
  | zeroStratum
  | invalidMode
deriving DecidableEq, Repr

/-- Modelled from the spec: `decodeResponse` validation — reject a datagram
whose byte length differs from the 48-byte wire size, whose leap indicator
signals an unsynchronized/alarm server (value 3), whose stratum is zero
(kiss-of-death), or whose mode field is not the server-response mode
(value 4). -/
def decodeResponse (b : List Nat) : Except DecodeError NtpPacket :=
  match decodePacket b with
  | none => .error .invalidLength
  | some p =>
    if p.leap_indicator = 3 then .error .alarmLeapIndicator
    else if p.stratum = 0 then .error .zeroStratum
    else if p.client_mode ≠ 4 then .error .invalidMode
    else .ok p

/-- A concrete valid packet used to witness codec properties. -/
def samplePacket : NtpPacket where
  client_mode := 4
  version_number := 3
  leap_indicator := 0
  stratum := 1
  poll := 6
  precision := 250
  root_delay := ⟨0, 515⟩
  root_dispersion := ⟨1, 2⟩
  reference_id_0 := 10
  reference_id_1 := 20
  reference_id_2 := 30
  reference_id_3 := 40
  reference_time := ⟨100, 200⟩
  originate_time := ⟨3700001, 5⟩
  receive_time := ⟨3700002, 6⟩
  transmit_time := ⟨3700003, 4294967295⟩

/-! ## Round-trip estimator formulas

Modelled from the spec: the Swift `RoundTripEstimator` implementation is
not among the visible sources; the closed-form equations are the spec's
(§4.2), with times as exact rationals. -/

/-- Modelled from the spec: `offset = ((t2 - t1) + (t3 - t4)) / 2`. -/
def ntpOffset (t1 t2 t3 t4 : ℚ) : ℚ := ((t2 - t1) + (t3 - t4)) / 2

/-- Modelled from the spec: `roundTripDelay = (t4 - t1) - (t3 - t2)`. -/
def roundTripDelay (t1 t2 t3 t4 : ℚ) : ℚ := (t4 - t1) - (t3 - t2)

/-- Modelled from the spec: a sample is rejected as untrustworthy when its
round-trip delay is negative. -/
def rejectedForNegativeDelay (t1 t2 t3 t4 : ℚ) : Prop :=
  roundTripDelay t1 t2 t3 t4 < 0

instance (t1 t2 t3 t4 : ℚ) : Decidable (rejectedForNegativeDelay t1 t2 t3 t4) := by
  unfold rejectedForNegativeDelay; infer_instance

/-! ## Sync coordinator

Modelled from the spec: the Swift `SyncCoordinator` implementation is not
among the visible sources; states and transitions follow §4.5. -/

/-- The coordinator's anchor: corrected wall time paired with the
monotonic reading at capture. -/
structure Anchor where
  correctedWallTime : ℚ
  monotonicAtCapture : ℚ
deriving DecidableEq, Repr

/-- Coordinator state-machine states. -/
inductive SyncStatus where
  | uninitialized
  | syncing
  | synced
  | failed
deriving DecidableEq, Repr

/-- Round-level failure reasons. -/
inductive RoundFailure where
  | insufficientSamples (validCount minimumAccept : Nat)
deriving DecidableEq, Repr

/-- Outcome of one polling round. -/
inductive RoundOutcome where
  | success (a : Anchor)
  | failure (e : RoundFailure)

/-- Coordinator state: status plus the current anchor, if any. -/
structure CoordinatorState where
  status : SyncStatus
  anchor : Option Anchor
deriving DecidableEq, Repr

/-- Modelled from the spec: finishing a round — a winning sample moves the
coordinator to Synced and captures a fresh anchor; a round failure moves
it to Failed, preserving any prior anchor. -/
def finishRound (st : CoordinatorState) : RoundOutcome → CoordinatorState
  | .success a => ⟨.synced, some a⟩
  | .failure _ => ⟨.failed, st.anchor⟩

/-- Modelled from the spec: `currentTime()` projects the stored anchor to
the given monotonic reading, `none` (NoAnchor) when never captured. -/
def currentTime (st : CoordinatorState) (monoNow : ℚ) : Option ℚ :=
  st.anchor.map fun a => a.correctedWallTime + (monoNow - a.monotonicAtCapture)

/-! ## `uptime.c`

`uptime` reads the wall clock (`gettimeofday`) and the kernel boot time
(`sysctl KERN_BOOTTIME`) and, when both calls succeed, writes their
componentwise difference to `*tv`.  The embedding takes each call's
return code and reading as inputs and returns the function's return code
paired with the written out-parameter (`none` when `*tv` is untouched). -/

/-- `struct timeval`: seconds and microseconds. -/
structure Timeval where
  tv_sec : Int
  tv_usec : Int
deriving DecidableEq, Repr

/-- The componentwise difference computed in `uptime.c` (no carry between
the seconds and microseconds fields). -/
def timevalSub (a b : Timeval) : Timeval :=
  ⟨a.tv_sec - b.tv_sec, a.tv_usec - b.tv_usec⟩

/-- Shift both fields of a `timeval` by the fields of `d`. -/
def timevalShift (a d : Timeval) : Timeval :=
  ⟨a.tv_sec + d.tv_sec, a.tv_usec + d.tv_usec⟩

/-- Shallow embedding of `uptime` from `NetworkTime/uptime.c`: propagate a
failing `gettimeofday` return code untouched; otherwise return `sysctl`'s
code, writing `now − boottime` to the out-parameter exactly when that
code is 0. -/
def uptime (gettimeofdayRet : Int) (now : Timeval)
    (sysctlRet : Int) (boottime : Timeval) : Int × Option Timeval :=
  if gettimeofdayRet ≠ 0 then (gettimeofdayRet, none)
  else if sysctlRet = 0 then (0, some (timevalSub now boottime))
  else (sysctlRet, none)

/-! ## Helper lemmas -/

theorem encodePacket_length (p : NtpPacket) : (encodePacket p).length = 48 := by
  simp [encodePacket, encTime32, encTime64, u16be, u32be]

/-! ## Claims -/

/-- C1: the packet record layout has a fixed total wire size of exactly
48 bytes — every `ntp_packet_t` value encodes to exactly 48 bytes. -/
theorem packet_wire_size_48 (p : NtpPacket) : (encodePacket p).length = 48 :=
  encodePacket_length p

/-- C3: the packet codec round-trips — decoding the bytes produced by
encoding a valid packet yields the packet again. -/
theorem decode_encode_roundtrip (p : NtpPacket) (h : p.Valid) :
    decodePacket (encodePacket p) = some p := by
  obtain ⟨m, v, l, s, po, pr, ⟨rdw, rdf⟩, ⟨dw, df⟩, r0, r1, r2, r3,
    ⟨aw, af⟩, ⟨bw, bf⟩, ⟨cw, cf⟩, ⟨ew, ef⟩⟩ := p
  obtain ⟨hm, hv, hl, hs, hpo, hpr, ⟨h1, h2⟩, ⟨h3, h4⟩, hr0, hr1, hr2, hr3,
    ⟨h5, h6⟩, ⟨h7, h8⟩, ⟨h9, h10⟩, ⟨h11, h12⟩⟩ := h
  simp only [NtpTime32.Valid, NtpTime64.Valid] at *
  simp only [decodePacket, encodePacket, headerByte, encTime32, encTime64,
    u16be, u32be, List.cons_append, List.nil_append, List.length_cons,
    List.length_nil, decodeFields, byteAt, rdU16, rdU32, rdTime32, rdTime64]
  norm_num [NtpPacket.mk.injEq, NtpTime32.mk.injEq, NtpTime64.mk.injEq]
  refine ⟨?_, ?_, ?_, ?_, ?_, ?_, ⟨?_, ?_⟩, ⟨?_, ?_⟩, ?_, ?_, ?_, ?_,
    ⟨?_, ?_⟩, ⟨?_, ?_⟩, ⟨?_, ?_⟩, ⟨?_, ?_⟩⟩ <;> omega

/-- Witness for C3 at a concrete valid packet. -/
theorem decode_encode_roundtrip_witness :
    samplePacket.Valid ∧ decodePacket (encodePacket samplePacket) = some samplePacket :=
  ⟨by decide, decode_encode_roundtrip samplePacket (by decide)⟩

/-- C5: the packet fields appear on the wire in declaration order at byte
offsets 0 (bitfield header byte), 1 (stratum), 2 (poll), 3 (precision),
4 (root-delay), 8 (root-dispersion), 12 (reference-id), and 16, 24, 32,
40 for the reference, originate, receive and transmit timestamps. -/
theorem packet_field_offsets (p : NtpPacket) (h : p.Valid) :
    (encodePacket p).take 1 = [headerByte p] ∧
    ((encodePacket p).drop 1).take 1 = [p.stratum] ∧
    ((encodePacket p).drop 2).take 1 = [p.poll] ∧
    ((encodePacket p).drop 3).take 1 = [p.precision] ∧
    ((encodePacket p).drop 4).take 4 = encTime32 p.root_delay ∧
    ((encodePacket p).drop 8).take 4 = encTime32 p.root_dispersion ∧
    ((encodePacket p).drop 12).take 4 =
      [p.reference_id_0, p.reference_id_1, p.reference_id_2, p.reference_id_3] ∧
    ((encodePacket p).drop 16).take 8 = encTime64 p.reference_time ∧
    ((encodePacket p).drop 24).take 8 = encTime64 p.originate_time ∧
    ((encodePacket p).drop 32).take 8 = encTime64 p.receive_time ∧
    ((encodePacket p).drop 40).take 8 = encTime64 p.transmit_time := by
  obtain ⟨m, v, l, s, po, pr, ⟨rdw, rdf⟩, ⟨dw, df⟩, r0, r1, r2, r3,
    ⟨aw, af⟩, ⟨bw, bf⟩, ⟨cw, cf⟩, ⟨ew, ef⟩⟩ := p
  obtain ⟨hm, hv, hl, hs, hpo, hpr, -, -, hr0, hr1, hr2, hr3, -, -, -, -⟩ := h
  simp only [encodePacket, headerByte, encTime32, encTime64, u16be, u32be,
    List.cons_append, List.nil_append, List.take_succ_cons, List.take_zero,
    List.drop_succ_cons, List.drop_zero]
  norm_num
  exact ⟨hs, hpo, hpr, hr0, hr1, hr2, hr3⟩

/-- Witness for C5 at a concrete valid packet. -/
theorem packet_field_offsets_witness :
    samplePacket.Valid ∧ (encodePacket samplePacket).take 1 = [headerByte samplePacket] :=
  ⟨by decide, (packet_field_offsets samplePacket (by decide)).1⟩

/-- C6: a full timestamp field is a 64-bit fixed-point value made of a
32-bit whole-seconds half and a 32-bit fractional half of 2^-32
resolution, so the fractional part denotes a value in [0,1) seconds. -/
theorem time64_fixed_point (t : NtpTime64) (h : t.Valid) :
    (encTime64 t).length = 8 ∧
    t.whole * 2 ^ 32 + t.fraction < 2 ^ 64 ∧
    t.seconds = (t.whole : ℚ) + (t.fraction : ℚ) / 2 ^ 32 ∧
    0 ≤ t.fracSeconds ∧ t.fracSeconds < 1 := by
  obtain ⟨hw, hf⟩ := h
  refine ⟨by simp [encTime64, u32be], by omega, rfl, ?_, ?_⟩
  · unfold NtpTime64.fracSeconds
    positivity
  · unfold NtpTime64.fracSeconds
    rw [div_lt_one (by norm_num)]
    exact_mod_cast hf

/-- Witness for C6 at a concrete valid timestamp (0.5 s fraction). -/
theorem time64_fixed_point_witness :
    (⟨5, 2147483648⟩ : NtpTime64).Valid ∧
      (0 ≤ (⟨5, 2147483648⟩ : NtpTime64).fracSeconds ∧
        (⟨5, 2147483648⟩ : NtpTime64).fracSeconds < 1) :=
  ⟨by decide, (time64_fixed_point ⟨5, 2147483648⟩ (by decide)).2.2.2⟩

/-- C4 counterexample: at t1=1000, t2=1000.5, t3=1000.6, t4=1000.1 the
spec's own closed-form equation gives `roundTripDelay = 0`, not −0.4 s,
and the sample is not rejected for negative delay. -/
theorem offset_example_counterexample :
    ¬(roundTripDelay 1000 (2001 / 2) (5003 / 5) (10001 / 10) = -(2 / 5) ∧
      rejectedForNegativeDelay 1000 (2001 / 2) (5003 / 5) (10001 / 10)) := by
  norm_num [roundTripDelay, rejectedForNegativeDelay]

/-- C4 amended: for t1=1000, t2=1000.5, t3=1000.6, t4=1000.1 the closed
forms yield offset = 0.5 s and roundTripDelay = 0 s, and the sample is
not rejected for negative delay. -/
theorem offset_example :
    ntpOffset 1000 (2001 / 2) (5003 / 5) (10001 / 10) = 1 / 2 ∧
    roundTripDelay 1000 (2001 / 2) (5003 / 5) (10001 / 10) = 0 ∧
    ¬rejectedForNegativeDelay 1000 (2001 / 2) (5003 / 5) (10001 / 10) := by
  norm_num [ntpOffset, roundTripDelay, rejectedForNegativeDelay]

/-- C7: `decodeResponse` returns a `DecodeError` rather than a packet
whenever the datagram's byte length differs from 48, or the decoded leap
indicator signals an alarm/unsynchronized server, or the stratum is zero,
or the mode field is not the server-response mode. -/
theorem decodeResponse_rejects (b : List Nat)
    (h : b.length ≠ 48 ∨ ∃ p, decodePacket b = some p ∧
      (p.leap_indicator = 3 ∨ p.stratum = 0 ∨ p.client_mode ≠ 4)) :
    ∃ e, decodeResponse b = .error e := by
  rcases h with hlen | ⟨p, hp, hbad⟩
  · have hnone : decodePacket b = none := by simp [decodePacket, hlen]
    exact ⟨.invalidLength, by simp [decodeResponse, hnone]⟩
  · simp only [decodeResponse, hp]
    split_ifs with h1 h2 h3
    · exact ⟨_, rfl⟩
    · exact ⟨_, rfl⟩
    · exact ⟨_, rfl⟩
    · rcases hbad with hb | hb | hb <;> simp_all

/-- Witness for C7: the empty datagram is rejected. -/
theorem decodeResponse_rejects_witness :
    ([] : List Nat).length ≠ 48 ∧ ∃ e, decodeResponse [] = .error e :=
  ⟨by decide, decodeResponse_rejects [] (Or.inl (by decide))⟩

/-- C8: a round failure (e.g. insufficient samples) moves the coordinator
to Failed while leaving the stored anchor unchanged; a previously stored
anchor remains queryable through `currentTime`. -/
theorem round_failure_preserves_anchor (st : CoordinatorState) (e : RoundFailure) :
    (finishRound st (.failure e)).status = .failed ∧
    (finishRound st (.failure e)).anchor = st.anchor ∧
    ∀ a, st.anchor = some a → ∀ m : ℚ,
      currentTime (finishRound st (.failure e)) m =
        some (a.correctedWallTime + (m - a.monotonicAtCapture)) := by
  refine ⟨rfl, rfl, fun a ha m => ?_⟩
  simp [currentTime, finishRound, ha]

/-- Witness for C8 at a concrete synced state holding an anchor. -/
theorem round_failure_preserves_anchor_witness :
    currentTime
      (finishRound ⟨.synced, some ⟨100, 5⟩⟩ (.failure (.insufficientSamples 1 2))) 7 =
      some (100 + (7 - 5)) :=
  (round_failure_preserves_anchor ⟨.synced, some ⟨100, 5⟩⟩
    (.insufficientSamples 1 2)).2.2 ⟨100, 5⟩ rfl 7

/-- C2 counterexample: two executions of `uptime` with equal boot-time
readings but different wall-clock readings return different elapsed
values — the computed value is `now − boottime`, so it is not invariant
under a change of the wall-clock reading alone. -/
theorem uptime_depends_on_wall_clock :
    uptime 0 ⟨100, 0⟩ 0 ⟨50, 0⟩ ≠ uptime 0 ⟨200, 0⟩ 0 ⟨50, 0⟩ := by decide

/-- C2 amended: `uptime`'s result is invariant under a wall-clock
adjustment that shifts the wall-clock reading and the kernel boot-time
reading by the same amount (which is how the kernel maintains
`KERN_BOOTTIME`): the result depends only on the difference
`now − boottime`. -/
theorem uptime_shift_invariant (g s : Int) (now boottime d : Timeval) :
    uptime g (timevalShift now d) s (timevalShift boottime d) =
      uptime g now s boottime := by
  simp only [uptime, timevalShift, timevalSub]
  split_ifs <;> simp [Timeval.mk.injEq]

/-- C9: `uptime` writes its out-parameter exactly when it returns 0; a
failing `gettimeofday` has its return code propagated with the
out-parameter untouched, a failing `sysctl` likewise, and when both
succeed the componentwise difference `now − boottime` is written and 0
returned. -/
theorem uptime_writes_iff_zero (g s : Int) (now boottime : Timeval) :
    ((uptime g now s boottime).1 = 0 ↔ (uptime g now s boottime).2.isSome) ∧
    (g ≠ 0 → uptime g now s boottime = (g, none)) ∧
    (g = 0 → s ≠ 0 → uptime g now s boottime = (s, none)) ∧
    (g = 0 → s = 0 → uptime g now s boottime = (0, some (timevalSub now boottime))) := by
  unfold uptime
  split_ifs <;> simp_all

/-- Witness for C9: both calls succeed at a concrete reading, so the
difference is written and 0 returned. -/
theorem uptime_writes_iff_zero_witness :
    uptime 0 ⟨10, 5⟩ 0 ⟨3, 2⟩ = (0, some (timevalSub ⟨10, 5⟩ ⟨3, 2⟩)) :=
  (uptime_writes_iff_zero 0 0 ⟨10, 5⟩ ⟨3, 2⟩).2.2.2 rfl rfl

/-- C10: `uptime` does not normalize its result — when the current
reading's microseconds are smaller than the boot time's, the returned
microseconds are negative (outside [0, 1000000)) and no borrow is applied
to the seconds. -/
theorem uptime_not_normalized :
    uptime 0 ⟨100, 100000⟩ 0 ⟨50, 600000⟩ = (0, some ⟨50, -500000⟩) ∧
    (100000 : Int) < 600000 ∧ (-500000 : Int) < 0 ∧ (100 : Int) - 50 = 50 := by
  decide

end TrueTime
